import Mathlib

/-!
Verification of the Tanea crawl-and-filter pipeline.

The development shallowly embeds the crawler's keyword-filtering functions
(`title_matches_keywords`, `metadata_matches_keywords`,
`calculate_keyword_relevance`, `is_content_relevant`), the content-extraction
pipeline (`extract_article`), the domain registry (`get_keywords`), the
rate-limiter backoff, the link store with its unique URL-hash constraint, and
the dual-store coordinator (`process_crawled_article`), and proves or refutes
the specified properties about them.

Python string semantics are modelled over `List Char`: `str.lower` is
`Char.toLower` mapped over the characters, `needle in hay` is contiguous
sublist containment, and `str.count` counts non-overlapping occurrences
scanning left to right, exactly as CPython does.
-/

namespace Tanea

/-- Python `str.lower()` on a string, as a list of lowercased characters. -/
def pyLower (s : String) : List Char :=
  s.data.map Char.toLower

/-- Whether `needle` is a prefix of `hay` (Boolean, executable). -/
def listStartsWith : List Char → List Char → Bool
  | [], _ => true
  | _ :: _, [] => false
  | n :: ns, h :: hs => n = h && listStartsWith ns hs

/-- Python substring test `needle in hay` over character lists. -/
def listContains (needle : List Char) : List Char → Bool
  | [] => listStartsWith needle []
  | c :: rest => listStartsWith needle (c :: rest) || listContains needle rest

/-- Fuel-based scanner behind `listCountOcc`; every step consumes at least one
character of the haystack, so fuel `hay.length` is always sufficient. -/
def listCountOccAux (needle : List Char) : Nat → List Char → Nat
  | 0, _ => 0
  | _ + 1, [] => 0
  | fuel + 1, c :: rest =>
    if listStartsWith needle (c :: rest) then
      1 + listCountOccAux needle fuel (rest.drop (needle.length - 1))
    else
      listCountOccAux needle fuel rest

/-- Python `hay.count(needle)`: non-overlapping occurrences, scanning left to
right and skipping the length of the needle after each match. -/
def listCountOcc (needle hay : List Char) : Nat :=
  listCountOccAux needle hay.length hay

/-- Whitespace characters recognised by Python `str.split()` (the ones
occurring in this repository's keyword lists). -/
def isWs (c : Char) : Bool :=
  c = ' ' || c = '\t' || c = '\n' || c = '\r'

/-- Helper for `pyWordCount`: counts maximal non-whitespace runs, tracking
whether the scanner is currently inside a word. -/
def wordCountAux : Bool → List Char → Nat
  | _, [] => 0
  | inWord, c :: rest =>
    if isWs c then wordCountAux false rest
    else (if inWord then 0 else 1) + wordCountAux true rest

/-- Python `len(s.split())`: the number of whitespace-separated words. -/
def pyWordCount (s : List Char) : Nat :=
  wordCountAux false s

/-- Python `min(a, b)` on rationals. -/
def pymin (a b : ℚ) : ℚ :=
  if a ≤ b then a else b

/-! ## KeywordFilter (src/start_weaviate_explorer.sh, keyword_filter.py snippets)

Level-1/2/3 filtering functions and the scoring constants of the
`KeywordFilter` class. -/

/-- `KeywordFilter.MIN_RELEVANCE_THRESHOLD`: minimum relevance for storage. -/
def MIN_RELEVANCE_THRESHOLD : ℚ := 1/10

/-- Level-1 filter `title_matches_keywords`: True when the lowercased title
contains the lowercased form of at least one keyword. -/
def title_matches_keywords (title : String) (keywords : List String) : Bool :=
  keywords.any (fun keyword => listContains (pyLower keyword) (pyLower title))

/-- Level-2 filter `metadata_matches_keywords`: combines title and description
as `f"{title} {description}".lower()` and tests each lowercased keyword for
substring containment. -/
def metadata_matches_keywords (title description : String)
    (keywords : List String) : Bool :=
  let check_text := pyLower (title ++ " " ++ description)
  keywords.any (fun keyword => listContains (pyLower keyword) check_text)

/-- Per-keyword contribution inside `calculate_keyword_relevance`: 0.4 when
the keyword occurs in the lowercased title, plus `min(0.3, 0.1*occurrences)`
when it occurs in the lowercased content, plus a 0.1 bonus when the keyword
has more than two words. The keyword itself is not lowercased, exactly as in
the source (`if keyword in title.lower()`). -/
def keyword_score (title_l content_l : List Char) (keyword : String) : ℚ :=
  (if listContains keyword.data title_l then (4 : ℚ)/10 else 0)
    + (if listContains keyword.data content_l then
        pymin ((3 : ℚ)/10) (((1 : ℚ)/10) * (listCountOcc keyword.data content_l : ℚ))
      else 0)
    + (if 2 < pyWordCount keyword.data then (1 : ℚ)/10 else 0)

/-- Level-3 scorer `calculate_keyword_relevance`: sums the per-keyword
contributions and normalizes with `min(1.0, score / 3.0)`. -/
def calculate_keyword_relevance (title content : String)
    (keywords : List String) : ℚ :=
  pymin 1 ((keywords.map (keyword_score (pyLower title) (pyLower content))).sum / 3)

/-- `is_content_relevant`: pairs the Level-3 score with the accept decision
`score >= threshold`; the deployed threshold is `MIN_RELEVANCE_THRESHOLD`. -/
def is_content_relevant (title content : String) (keywords : List String)
    (threshold : ℚ) : Bool × ℚ :=
  let score := calculate_keyword_relevance title content keywords
  (decide (threshold ≤ score), score)

/-! ## ContentExtractor (`extract_article`, src/start_weaviate_explorer.sh)

The multi-step extraction pipeline: fetch, Level-2 metadata pre-filter,
Trafilatura extraction, length/quality validation, Level-3 relevance gate.
The extraction engine itself (Trafilatura) is an external collaborator; a
fetched page carries the metadata the Level-2 filter reads and the result the
engine would produce if invoked. The Boolean component of the result records
whether the extraction engine was invoked. -/

/-- `ContentExtractor.MIN_EXTRACTED_SIZE` (documented default 200). -/
def MIN_EXTRACTED_SIZE : Nat := 200

/-- `ContentExtractor.MAX_OUTPUT_SIZE` (documented default 50000). -/
def MAX_OUTPUT_SIZE : Nat := 50000

/-- `min_quality_score` (web_crawling.yaml `general`, default 0.3). -/
def min_quality_score : ℚ := 3/10

/-- Result of the extraction engine collaborator for one page. -/
structure ExtractedData where
  title : String
  content : String
  author : String
  quality_score : ℚ
deriving DecidableEq, Repr

/-- A fetched page: the lightweight metadata read by the Level-2 filter, and
the article the extraction engine would return (`none` when extraction
fails). -/
structure PageData where
  meta_title : String
  meta_description : String
  extraction : Option ExtractedData
deriving DecidableEq, Repr

/-- `extract_article(url, domain, keywords)`: `fetched` is the outcome of
STEP 1 (`none` when the fetch failed). STEP 2 runs the Level-2 metadata
filter only when the keyword list is truthy (`if keywords and not ...`);
STEP 3 invokes the extraction engine; the extracted text is validated for
length and quality; STEP 4 applies the Level-3 relevance gate, again only
when the keyword list is truthy. The second component reports whether the
extraction engine was invoked. -/
def extract_article (fetched : Option PageData) (keywords : List String) :
    Option ExtractedData × Bool :=
  match fetched with
  | none => (none, false)
  | some page =>
    if !keywords.isEmpty &&
        !metadata_matches_keywords page.meta_title page.meta_description keywords then
      (none, false)
    else
      match page.extraction with
      | none => (none, true)
      | some art =>
        if art.content.length < MIN_EXTRACTED_SIZE
            || MAX_OUTPUT_SIZE < art.content.length then
          (none, true)
        else if art.quality_score < min_quality_score then
          (none, true)
        else if !keywords.isEmpty then
          if (is_content_relevant art.title art.content keywords
              MIN_RELEVANCE_THRESHOLD).1 then
            (some art, true)
          else
            (none, true)
        else
          (some art, true)

/-! ## DomainManager (src/start_weaviate_explorer.sh, `get_keywords`)

The registry maps domain ids to their configuration. `get_keywords` follows
its documented contract: the keyword list of the domain, or the empty list
when the domain is not found. -/

/-- Per-domain configuration (`domains.yaml` entry). -/
structure DomainConfig where
  name : String
  active : Bool
  keywords : List String
deriving DecidableEq, Repr

/-- The loaded domain registry: association list from domain id to config. -/
def DomainRegistry : Type := List (String × DomainConfig)

/-- Configuration lookup behind `DomainManager.get_domain`. -/
def get_domain (registry : DomainRegistry) (domain_id : String) :
    Option DomainConfig :=
  (List.find? (fun p => p.1 = domain_id) registry).map (fun p => p.2)

/-- `DomainManager.get_keywords`: the keyword list of the domain, or the
empty list when the domain is not found (documented contract). -/
def get_keywords (registry : DomainRegistry) (domain_id : String) :
    List String :=
  match get_domain registry domain_id with
  | some cfg => cfg.keywords
  | none => []

/-- Error value of the spec's Domain Registry contract. -/
inductive UnknownDomain where
  | unknownDomain (domain_id : String)
deriving DecidableEq, Repr

/-- The spec's version of the keywords lookup, for comparison with
`get_keywords`: `keywords(domainId)` fails with `UnknownDomain` when the
domain is not present. -/
def keywords_spec (registry : DomainRegistry) (domain_id : String) :
    Except UnknownDomain (List String) :=
  match get_domain registry domain_id with
  | some cfg => Except.ok cfg.keywords
  | none => Except.error (UnknownDomain.unknownDomain domain_id)

/-! ## Rate Limiter backoff (config: rate_limit_back_off_factor,
rate_limit_max_back_off)

Modelled from the spec: `rate_limiter.py` is not among the source files; only
its configuration (`config.dev.conf`: `rate_limit_back_off_factor = 2.0`,
`rate_limit_max_back_off = 300.0`) and its description are. `reportFailure`
multiplies the current per-site delay by the backoff factor up to the
configured ceiling; `reportSuccess` resets the multiplier to 1.0, restoring
the base delay. -/

/-- `rate_limit_back_off_factor = 2.0` (config.dev.conf). -/
def rate_limit_back_off_factor : ℚ := 2

/-- `rate_limit_max_back_off = 300.0` seconds (config.dev.conf). -/
def rate_limit_max_back_off : ℚ := 300

/-- Per-site rate-limiter state: the configured base delay and the current
(backed-off) delay. -/
structure SiteRateState where
  base_delay : ℚ
  current_delay : ℚ
deriving DecidableEq, Repr

/-- Modelled from the spec: `reportFailure(site)` multiplies the current
delay by the backoff factor, capped at the ceiling. -/
def reportFailure (s : SiteRateState) : SiteRateState :=
  { s with current_delay :=
      pymin (s.current_delay * rate_limit_back_off_factor) rate_limit_max_back_off }

/-- Modelled from the spec: `reportSuccess(site)` resets the multiplier to
1.0, so the current delay returns to the base delay. -/
def reportSuccess (s : SiteRateState) : SiteRateState :=
  { s with current_delay := s.base_delay }

/-- `n` consecutive `reportFailure` calls with no intervening
`reportSuccess`. -/
def iterateFailures : Nat → SiteRateState → SiteRateState
  | 0, s => s
  | n + 1, s => iterateFailures n (reportFailure s)

/-! ## Link store (prisma/schema.prisma, DiscoveredLink)

Modelled from the schema and the spec: `link_database.py` is not among the
source files. The schema declares `url_hash String @unique` on
`discovered_links`; an insertion that collides on the hash is rejected by the
constraint, leaving the store unchanged. The SHA-256 of the normalized URL is
modelled by the normalized URL itself (an injective stand-in). -/

/-- One `DiscoveredLink` row, reduced to the fields the uniqueness claim is
about. -/
structure DiscoveredLinkRow where
  url : String
  url_hash : String
deriving DecidableEq, Repr

/-- Content-addressed hash of the normalized URL (injective SHA-256
stand-in). -/
def url_hash_of (normalized_url : String) : String :=
  normalized_url

/-- Insert a normalized URL into the link store: rejected when a row with
the same `url_hash` exists (unique constraint), added otherwise. -/
def insertLink (store : List DiscoveredLinkRow) (u : String) :
    List DiscoveredLinkRow :=
  if store.any (fun r => r.url_hash = url_hash_of u) then store
  else ⟨u, url_hash_of u⟩ :: store

/-- The store reached from the empty store by a sequence of insertions. -/
def insertAll (urls : List String) : List DiscoveredLinkRow :=
  urls.foldl insertLink []

/-- Number of rows carrying a given URL hash. -/
def countHash (store : List DiscoveredLinkRow) (h : String) : Nat :=
  (store.filter (fun r => r.url_hash = h)).length

/-- URL-hash uniqueness across the store (the `@unique` invariant). -/
def uniqueHashes (store : List DiscoveredLinkRow) : Prop :=
  (store.map (fun r => r.url_hash)).Nodup

/-! ## Storage Coordinator (`process_crawled_article`, database_manager.py)

Modelled from the spec: `database_manager.py` is not among the source files;
src documents only the protocol outline (verify link, content hash, Weaviate
write, PostgreSQL metadata write, link status update). The spec's §4.6
protocol is modelled step by step: state verification, content-hash dedup,
vector write, metadata write with bounded retries, compensating delete on
persistent metadata failure. The content hash (SHA-256 of the normalized
extracted text) is modelled by the text itself; the outcome of each external
write within its retry budget is an explicit Boolean oracle. -/

/-- `LinkStatus` enum (prisma/schema.prisma). -/
inductive LinkStatus where
  | NEW
  | CRAWLING
  | CRAWLED
  | FAILED
  | OBSOLETE
  | BLOCKED
deriving DecidableEq, Repr

/-- Article payload handed to the coordinator. -/
structure ArticleData where
  title : String
  content : String
  domain : String
deriving DecidableEq, Repr

/-- Content hash of the normalized extracted text (injective SHA-256
stand-in). -/
def content_hash_of (a : ArticleData) : String :=
  a.content

/-- One `ExtractedArticle` metadata row (relational store). -/
structure ArticleRow where
  link_id : Nat
  weaviate_id : Nat
  content_hash : String
  domain : String
deriving DecidableEq, Repr

/-- The two coordinated stores: link rows and article metadata rows
(relational store), vector-store object ids, and the id the vector store
hands out next. -/
structure CoordState where
  links : List (Nat × LinkStatus)
  articles : List ArticleRow
  vectors : List Nat
  next_vid : Nat
deriving DecidableEq, Repr

/-- Status of a link in the relational store. -/
def lookupLink (st : CoordState) (link_id : Nat) : Option LinkStatus :=
  (List.find? (fun p => p.1 = link_id) st.links).map (fun p => p.2)

/-- Update the status of one link, leaving everything else unchanged. -/
def setLinkStatus (st : CoordState) (link_id : Nat) (s : LinkStatus) :
    CoordState :=
  { st with links := st.links.map (fun p => if p.1 = link_id then (p.1, s) else p) }

/-- Dedup check: does an `ExtractedArticle` with this content hash already
exist for the domain? -/
def hasDuplicate (st : CoordState) (h domain : String) : Bool :=
  st.articles.any (fun a => a.content_hash = h && a.domain = domain)

/-- Delete one object from the vector store (the compensating action). -/
def deleteVector (st : CoordState) (vid : Nat) : CoordState :=
  { st with vectors := st.vectors.filter (fun v => v ≠ vid) }

/-- Outcome of one `processArticle` call. -/
inductive ProcResult where
  | success
  | duplicate
  | invalidState
  | storageError
deriving DecidableEq, Repr

/-- `process_crawled_article(link_id, article_data)` following §4.6:
1. abort with `invalidState` unless the link exists and is `CRAWLING`;
2. skip storage and mark the link `CRAWLED` when an article with the same
   content hash exists for the domain;
3. write the article body to the vector store (oracle `vectorWriteOk`),
   marking the link `FAILED` when the write fails;
4. write the metadata row (oracle `metaWriteOk` covers the bounded retries);
   when it fails persistently, delete the orphaned vector object
   (compensating action) and mark the link `FAILED`;
5. on success mark the link `CRAWLED`. -/
def process_crawled_article (st : CoordState) (link_id : Nat)
    (art : ArticleData) (vectorWriteOk metaWriteOk : Bool) :
    ProcResult × CoordState :=
  match lookupLink st link_id with
  | none => (ProcResult.invalidState, st)
  | some status =>
    if status = LinkStatus.CRAWLING then
      let h := content_hash_of art
      if hasDuplicate st h art.domain then
        (ProcResult.duplicate, setLinkStatus st link_id LinkStatus.CRAWLED)
      else if vectorWriteOk then
        let vid := st.next_vid
        let st1 : CoordState :=
          { st with vectors := vid :: st.vectors, next_vid := st.next_vid + 1 }
        if metaWriteOk then
          let st2 : CoordState :=
            { st1 with articles := ⟨link_id, vid, h, art.domain⟩ :: st1.articles }
          (ProcResult.success, setLinkStatus st2 link_id LinkStatus.CRAWLED)
        else
          (ProcResult.storageError,
            setLinkStatus (deleteVector st1 vid) link_id LinkStatus.FAILED)
      else
        (ProcResult.storageError, setLinkStatus st link_id LinkStatus.FAILED)
    else
      (ProcResult.invalidState, st)

/-- Cross-store consistency: every metadata row points at an existing vector
object, and every vector object is pointed at by some metadata row. -/
def consistentB (st : CoordState) : Bool :=
  st.articles.all (fun a => st.vectors.any (fun v => v = a.weaviate_id)) &&
    st.vectors.all (fun v => st.articles.any (fun a => a.weaviate_id = v))

/-- Vector-store id discipline: every live object id is below the id the
store hands out next (so fresh ids never collide). -/
def vidsFreshB (st : CoordState) : Bool :=
  st.vectors.all (fun v => v < st.next_vid)

/-- Number of `ExtractedArticle` rows for a content hash within a domain. -/
def countArticles (st : CoordState) (h domain : String) : Nat :=
  (st.articles.filter (fun a => a.content_hash = h && a.domain = domain)).length

/-! ## Scenario A inputs (spec §8) -/

/-- Scenario A title. -/
def scenarioTitle : String := "Juventus batte l\x27Inter 2-1"

/-- Scenario A content: contains "Serie A" exactly three times. -/
def scenarioContent : String :=
  "La Serie A oggi: risultati Serie A e classifica Serie A"

/-- Scenario A keyword list. -/
def scenarioKeywords : List String := ["Serie A", "Juventus"]

/-! ## Claims -/

/-- Claim C1 fails on the code: on Scenario A's inputs (content containing
"Serie A" exactly three times) the Level-3 scorer returns 0, not 11/30, and
`is_content_relevant` rejects, because `calculate_keyword_relevance` tests
the raw keyword against the lowercased text (`if keyword in title.lower()`),
so the capitalized keywords "Serie A" and "Juventus" never match. -/
theorem C1_scenarioA_counterexample :
    listCountOcc "Serie A".data scenarioContent.data = 3 ∧
    calculate_keyword_relevance scenarioTitle scenarioContent scenarioKeywords ≠ 11/30 ∧
    (is_content_relevant scenarioTitle scenarioContent scenarioKeywords
      MIN_RELEVANCE_THRESHOLD).1 ≠ true := by
  refine ⟨by decide, ?_, ?_⟩ <;> with_unfolding_all decide

/-- Claim C1 amended: on Scenario A's inputs the Level-3 relevance score is
0 — no keyword matches, since the keywords keep their capital letters while
title and content are lowercased — and `is_content_relevant` with the default
threshold 0.1 returns `(false, 0)`. -/
theorem C1_scenarioA_amended :
    calculate_keyword_relevance scenarioTitle scenarioContent scenarioKeywords = 0 ∧
    is_content_relevant scenarioTitle scenarioContent scenarioKeywords
      MIN_RELEVANCE_THRESHOLD = (false, 0) := by
  with_unfolding_all decide

/-- Sample domain registry used by concrete instances. -/
def sampleRegistry : DomainRegistry :=
  [("calcio", ⟨"Calcio", true, ["Serie A", "Juventus", "Inter"]⟩)]

/-- Claim C4 fails on the code: for a domain id absent from the registry
("tecnologia"), `get_keywords` returns the empty list — a normal value —
while the spec's contract (`keywords_spec`) would fail with `UnknownDomain`. -/
theorem C4_unknown_domain_counterexample :
    get_domain sampleRegistry "tecnologia" = none ∧
    get_keywords sampleRegistry "tecnologia" = [] ∧
    keywords_spec sampleRegistry "tecnologia"
      = Except.error (UnknownDomain.unknownDomain "tecnologia") := by
  refine ⟨by decide, by decide, by rfl⟩

/-- Claim C4 amended: for every domain id not present in the registry,
`get_keywords` returns the empty list; it never fails. -/
theorem C4_unknown_domain_amended (registry : DomainRegistry)
    (domain_id : String) (h : get_domain registry domain_id = none) :
    get_keywords registry domain_id = [] := by
  unfold get_keywords
  rw [h]

/-- Witness for the amended C4 at the concrete registry. -/
theorem C4_unknown_domain_amended_witness :
    get_domain sampleRegistry "tecnologia" = none ∧
    get_keywords sampleRegistry "tecnologia" = [] :=
  ⟨by decide, C4_unknown_domain_amended sampleRegistry "tecnologia" (by decide)⟩

/-- Claim C8: `is_content_relevant` accepts exactly when the Level-3 score
is greater than or equal to the threshold; in particular a score exactly
equal to the threshold is accepted. -/
theorem C8_threshold_boundary (title content : String)
    (keywords : List String) (threshold : ℚ) :
    ((is_content_relevant title content keywords threshold).1 = true ↔
      threshold ≤ calculate_keyword_relevance title content keywords) ∧
    (is_content_relevant title content keywords
      (calculate_keyword_relevance title content keywords)).1 = true := by
  constructor
  · simp [is_content_relevant]
  · simp [is_content_relevant]

/-- Claim C7: with a non-empty keyword list, a candidate whose Level-2
metadata filter fails never reaches the extraction engine: `extract_article`
returns nothing and the engine-invocation flag stays `false`. -/
theorem C7_level2_blocks_extraction (page : PageData) (keywords : List String)
    (hk : keywords ≠ [])
    (hm : metadata_matches_keywords page.meta_title page.meta_description
      keywords = false) :
    extract_article (some page) keywords = (none, false) := by
  have hne : keywords.isEmpty = false := by
    cases keywords with
    | nil => exact absurd rfl hk
    | cons a as => rfl
  simp [extract_article, hne, hm]

/-- Page whose metadata misses the keyword entirely. -/
def c7Page : PageData :=
  ⟨"Meteo di domani", "previsioni del tempo in Italia",
    some ⟨"Meteo di domani", "testo articolo", "autore", 1⟩⟩

/-- Witness for C7: a concrete page about the weather, filtered by the
keyword "Serie A" at Level 2, never reaches the extraction engine. -/
theorem C7_witness :
    (["Serie A"] ≠ ([] : List String)) ∧
    metadata_matches_keywords c7Page.meta_title c7Page.meta_description
      ["Serie A"] = false ∧
    extract_article (some c7Page) ["Serie A"] = (none, false) :=
  ⟨by decide, by decide,
    C7_level2_blocks_extraction c7Page ["Serie A"] (by decide) (by decide)⟩

/-- Claim C10: with an empty (or None) keyword list both the Level-2 and
Level-3 gates are skipped (their guards test the truthiness of the keyword
list), so any page whose fetch, extraction, length and quality checks
succeed yields an article record. -/
theorem C10_no_keywords_no_gates (page : PageData) (art : ExtractedData)
    (hx : page.extraction = some art)
    (hmin : MIN_EXTRACTED_SIZE ≤ art.content.length)
    (hmax : art.content.length ≤ MAX_OUTPUT_SIZE)
    (hq : min_quality_score ≤ art.quality_score) :
    extract_article (some page) [] = (some art, true) := by
  simp [extract_article, hx, Nat.not_lt.mpr hmin, Nat.not_lt.mpr hmax,
    not_lt.mpr hq]

/-- Concrete extraction result with 250 characters of content. -/
def c10Art : ExtractedData :=
  ⟨"Titolo qualunque", String.mk (List.replicate 250 'x'), "autore", 1/2⟩

/-- Concrete fetched page carrying `c10Art`. -/
def c10Page : PageData := ⟨"Titolo qualunque", "descrizione", some c10Art⟩

set_option maxRecDepth 4096 in
/-- Witness for C10: the concrete page passes with an empty keyword list and
no relevance gating. -/
theorem C10_no_keywords_no_gates_witness :
    c10Page.extraction = some c10Art ∧
    MIN_EXTRACTED_SIZE ≤ c10Art.content.length ∧
    c10Art.content.length ≤ MAX_OUTPUT_SIZE ∧
    min_quality_score ≤ c10Art.quality_score ∧
    extract_article (some c10Page) [] = (some c10Art, true) :=
  ⟨rfl, by decide, by decide, by with_unfolding_all decide,
    C10_no_keywords_no_gates c10Page c10Art rfl (by decide) (by decide)
      (by with_unfolding_all decide)⟩

/-- One `reportFailure` never decreases a delay that is nonnegative and
below the ceiling. -/
theorem reportFailure_mono (s : SiteRateState) (h0 : 0 ≤ s.current_delay)
    (hc : s.current_delay ≤ rate_limit_max_back_off) :
    s.current_delay ≤ (reportFailure s).current_delay := by
  unfold reportFailure pymin
  unfold rate_limit_back_off_factor rate_limit_max_back_off at *
  dsimp only
  split <;> linarith

/-- `reportFailure` keeps the delay nonnegative. -/
theorem reportFailure_nonneg (s : SiteRateState)
    (h0 : 0 ≤ s.current_delay) : 0 ≤ (reportFailure s).current_delay := by
  unfold reportFailure pymin
  unfold rate_limit_back_off_factor rate_limit_max_back_off
  dsimp only
  split <;> linarith

/-- `reportFailure` keeps the delay at or below the ceiling. -/
theorem reportFailure_le_ceiling (s : SiteRateState)
    (hc : s.current_delay ≤ rate_limit_max_back_off) :
    (reportFailure s).current_delay ≤ rate_limit_max_back_off := by
  unfold reportFailure pymin
  dsimp only
  split
  · assumption
  · exact le_refl _

/-- Claim C6: starting from any reachable delay (nonnegative and at most the
300-second ceiling), a sequence of `reportFailure` calls with no intervening
`reportSuccess` never decreases the current delay, and never exceeds the
ceiling. -/
theorem C6_backoff_monotone (s : SiteRateState) (h0 : 0 ≤ s.current_delay)
    (hc : s.current_delay ≤ rate_limit_max_back_off) (n : Nat) :
    (iterateFailures n s).current_delay
      ≤ (iterateFailures (n + 1) s).current_delay ∧
    (iterateFailures n s).current_delay ≤ rate_limit_max_back_off := by
  induction n generalizing s with
  | zero =>
    exact ⟨reportFailure_mono s h0 hc, hc⟩
  | succ n ih =>
    have h0' := reportFailure_nonneg s h0
    have hc' := reportFailure_le_ceiling s hc
    exact ih (reportFailure s) h0' hc'

/-- Witness for C6 at the default base delay 2.0 and three failures. -/
theorem C6_backoff_monotone_witness :
    (0 : ℚ) ≤ (SiteRateState.mk 2 2).current_delay ∧
    (SiteRateState.mk 2 2).current_delay ≤ rate_limit_max_back_off ∧
    (iterateFailures 3 (SiteRateState.mk 2 2)).current_delay
      ≤ (iterateFailures 4 (SiteRateState.mk 2 2)).current_delay :=
  ⟨by with_unfolding_all decide, by with_unfolding_all decide,
    (C6_backoff_monotone (SiteRateState.mk 2 2) (by with_unfolding_all decide)
      (by with_unfolding_all decide) 3).1⟩

/-- Inserting into a store with unique hashes keeps the hashes unique. -/
theorem insertLink_uniqueHashes (store : List DiscoveredLinkRow) (u : String)
    (h : uniqueHashes store) : uniqueHashes (insertLink store u) := by
  unfold insertLink
  split
  · exact h
  · rename_i hany
    unfold uniqueHashes at h ⊢
    simp only [List.map_cons, List.nodup_cons]
    refine ⟨?_, h⟩
    intro hmem
    apply hany
    rw [List.any_eq_true]
    rcases List.mem_map.mp hmem with ⟨r, hr, hru⟩
    exact ⟨r, hr, by simp [hru]⟩

/-- Folding insertions preserves hash uniqueness. -/
theorem foldl_insertLink_uniqueHashes (urls : List String)
    (store : List DiscoveredLinkRow) (h : uniqueHashes store) :
    uniqueHashes (urls.foldl insertLink store) := by
  induction urls generalizing store with
  | nil => exact h
  | cons u us ih => exact ih _ (insertLink_uniqueHashes store u h)

/-- After inserting `u`, some row carries its hash. -/
theorem insertLink_hash_present (store : List DiscoveredLinkRow) (u : String) :
    (insertLink store u).any (fun r => r.url_hash = url_hash_of u) = true := by
  unfold insertLink
  split
  · assumption
  · simp

/-- Inserting a URL whose hash is already present leaves the store
unchanged. -/
theorem insertLink_absorb (store : List DiscoveredLinkRow) (u : String)
    (h : store.any (fun r => r.url_hash = url_hash_of u) = true) :
    insertLink store u = store := by
  unfold insertLink
  rw [h]
  simp

/-- Claim C9: the store reached from the empty store by any insertion
sequence has a unique URL hash across all rows; re-inserting the same
normalized URL is a no-op (rejected by the unique hash constraint), and a
store without the hash ends up with exactly one row for it after two
insertions of the same URL. -/
theorem C9_url_hash_unique (urls : List String)
    (store : List DiscoveredLinkRow) (u : String)
    (h0 : countHash store (url_hash_of u) = 0) :
    uniqueHashes (insertAll urls) ∧
    insertLink (insertLink store u) u = insertLink store u ∧
    countHash (insertLink (insertLink store u) u) (url_hash_of u) = 1 := by
  have hfil : store.filter (fun r => r.url_hash = url_hash_of u) = [] :=
    List.length_eq_zero.mp h0
  have hidem := insertLink_absorb (insertLink store u) u
    (insertLink_hash_present store u)
  have hany : store.any (fun r => r.url_hash = url_hash_of u) = false := by
    rw [List.any_eq_false]
    intro r hr hru
    have : r ∈ store.filter (fun r => r.url_hash = url_hash_of u) :=
      List.mem_filter.mpr ⟨hr, hru⟩
    rw [hfil] at this
    cases this
  refine ⟨foldl_insertLink_uniqueHashes urls [] (by simp [uniqueHashes]), hidem, ?_⟩
  rw [hidem]
  unfold insertLink
  rw [hany]
  simp only [Bool.false_eq_true, if_false]
  unfold countHash
  rw [List.filter_cons]
  simp [hfil]

/-- Witness for C9 with a concrete URL inserted twice into the empty
store. -/
theorem C9_url_hash_unique_witness :
    countHash [] (url_hash_of "https://example.com/a") = 0 ∧
    uniqueHashes (insertAll ["https://example.com/a", "https://example.com/a"]) ∧
    countHash (insertLink (insertLink [] "https://example.com/a")
      "https://example.com/a") (url_hash_of "https://example.com/a") = 1 :=
  ⟨by decide,
    (C9_url_hash_unique ["https://example.com/a", "https://example.com/a"] []
      "https://example.com/a" (by decide)).1,
    (C9_url_hash_unique ["https://example.com/a", "https://example.com/a"] []
      "https://example.com/a" (by decide)).2.2⟩

/-- Updating a link status touches neither articles, vectors, nor the next
vector id, so cross-store consistency is untouched. -/
theorem consistentB_set (st : CoordState) (i : Nat) (s : LinkStatus) :
    consistentB (setLinkStatus st i s) = consistentB st := rfl

/-- Updating a link status preserves vector-id freshness. -/
theorem vidsFreshB_set (st : CoordState) (i : Nat) (s : LinkStatus) :
    vidsFreshB (setLinkStatus st i s) = vidsFreshB st := rfl

/-- Claim C3: when the link is missing or not in `CRAWLING` state,
`process_crawled_article` aborts with `invalidState` and the state — both
stores — is unchanged. -/
theorem C3_invalid_state_aborts (st : CoordState) (link_id : Nat)
    (art : ArticleData) (vOk mOk : Bool)
    (h : lookupLink st link_id = none ∨
      ∀ s, lookupLink st link_id = some s → s ≠ LinkStatus.CRAWLING) :
    process_crawled_article st link_id art vOk mOk
      = (ProcResult.invalidState, st) := by
  unfold process_crawled_article
  cases hl : lookupLink st link_id with
  | none => rfl
  | some s =>
    rcases h with h | h
    · rw [hl] at h
      cases h
    · have hs := h s hl
      simp [hs]

/-- State with one link already `CRAWLED`. -/
def c3State : CoordState := ⟨[(5, LinkStatus.CRAWLED)], [], [], 0⟩

/-- Witness for C3 at a concrete state whose link is already `CRAWLED`. -/
theorem C3_invalid_state_aborts_witness :
    process_crawled_article c3State 5 ⟨"t", "c", "calcio"⟩ true true
      = (ProcResult.invalidState, c3State) :=
  C3_invalid_state_aborts c3State 5 ⟨"t", "c", "calcio"⟩ true true
    (Or.inr (fun s hs => by
      have h5 : lookupLink c3State 5 = some LinkStatus.CRAWLED := by decide
      rw [h5] at hs
      cases hs
      decide))

/-- Cross-store consistency, spelt out as a proposition about rows and
vector objects. -/
theorem consistentB_eq_true_iff (st : CoordState) :
    consistentB st = true ↔
      ((∀ a ∈ st.articles, a.weaviate_id ∈ st.vectors) ∧
        ∀ v ∈ st.vectors, ∃ a ∈ st.articles, a.weaviate_id = v) := by
  unfold consistentB
  rw [Bool.and_eq_true, List.all_eq_true, List.all_eq_true]
  constructor
  · rintro ⟨h1, h2⟩
    constructor
    · intro a ha
      rcases List.any_eq_true.mp (h1 a ha) with ⟨v, hv, hveq⟩
      rw [decide_eq_true_eq] at hveq
      exact hveq ▸ hv
    · intro v hv
      rcases List.any_eq_true.mp (h2 v hv) with ⟨a, ha, haeq⟩
      rw [decide_eq_true_eq] at haeq
      exact ⟨a, ha, haeq⟩
  · rintro ⟨h1, h2⟩
    constructor
    · intro a ha
      exact List.any_eq_true.mpr ⟨a.weaviate_id, h1 a ha, by simp⟩
    · intro v hv
      rcases h2 v hv with ⟨a, ha, haeq⟩
      exact List.any_eq_true.mpr ⟨a, ha, by simp [haeq]⟩

/-- Vector-id freshness, spelt out as a proposition. -/
theorem vidsFreshB_eq_true_iff (st : CoordState) :
    vidsFreshB st = true ↔ ∀ v ∈ st.vectors, v < st.next_vid := by
  unfold vidsFreshB
  simp [List.all_eq_true]

/-- Updating the status of link `i` does not change the status of a
different link `j`. -/
theorem find_map_set_ne (l : List (Nat × LinkStatus)) (i j : Nat)
    (s : LinkStatus) (hij : i ≠ j) :
    ((l.map (fun p => if p.1 = i then (p.1, s) else p)).find?
        (fun p => p.1 = j)).map Prod.snd
      = (l.find? (fun p => p.1 = j)).map Prod.snd := by
  induction l with
  | nil => rfl
  | cons p rest ih =>
    by_cases hpi : p.1 = i
    · have hpj : ¬ (p.1 = j) := by
        rw [hpi]
        exact hij
      rw [List.map_cons, if_pos hpi]
      rw [List.find?_cons_of_neg _ (by simpa using hpj),
        List.find?_cons_of_neg _ (by simpa using hpj)]
      exact ih
    · rw [List.map_cons, if_neg hpi]
      by_cases hpj : p.1 = j
      · rw [List.find?_cons_of_pos _ (by simpa using hpj),
          List.find?_cons_of_pos _ (by simpa using hpj)]
      · rw [List.find?_cons_of_neg _ (by simpa using hpj),
          List.find?_cons_of_neg _ (by simpa using hpj)]
        exact ih

/-- Updating the status of a link that exists makes its status the updated
one. -/
theorem find_map_set_self (l : List (Nat × LinkStatus)) (j : Nat)
    (s : LinkStatus) (h : (l.find? (fun p => p.1 = j)).isSome) :
    ((l.map (fun p => if p.1 = j then (p.1, s) else p)).find?
        (fun p => p.1 = j)).map Prod.snd = some s := by
  induction l with
  | nil => simp [List.find?] at h
  | cons p rest ih =>
    by_cases hpj : p.1 = j
    · rw [List.map_cons, if_pos hpj]
      rw [List.find?_cons_of_pos _ (by simpa using hpj)]
      rfl
    · rw [List.find?_cons_of_neg _ (by simpa using hpj)] at h
      rw [List.map_cons, if_neg hpj]
      rw [List.find?_cons_of_neg _ (by simpa using hpj)]
      exact ih h

/-- `lookupLink` at a different link id is unaffected by `setLinkStatus`. -/
theorem lookupLink_set_ne (st : CoordState) (i j : Nat) (s : LinkStatus)
    (hij : i ≠ j) :
    lookupLink (setLinkStatus st i s) j = lookupLink st j :=
  find_map_set_ne st.links i j s hij

/-- `lookupLink` at an existing link after `setLinkStatus` on it returns the
new status. -/
theorem lookupLink_set_self (st : CoordState) (j : Nat) (s : LinkStatus)
    (h : (lookupLink st j).isSome) :
    lookupLink (setLinkStatus st j s) j = some s := by
  apply find_map_set_self
  unfold lookupLink at h
  exact Option.isSome_map' ▸ h

/-- A zero row count for a content hash within a domain means the duplicate
check fails. -/
theorem hasDuplicate_eq_false_of_count_zero (st : CoordState) (h d : String)
    (h0 : countArticles st h d = 0) : hasDuplicate st h d = false := by
  have hfil : st.articles.filter
      (fun a => a.content_hash = h && a.domain = d) = [] :=
    List.length_eq_zero.mp h0
  rw [hasDuplicate, List.any_eq_false]
  intro a ha hpa
  have : a ∈ st.articles.filter (fun a => a.content_hash = h && a.domain = d) :=
    List.mem_filter.mpr ⟨ha, hpa⟩
  rw [hfil] at this
  cases this

/-- Removing the just-allocated fresh vector id from the vector list
restores the original vector list. -/
theorem filter_fresh_eq (st : CoordState) (hfresh : vidsFreshB st = true) :
    List.filter (fun v => v ≠ st.next_vid) (st.next_vid :: st.vectors)
      = st.vectors := by
  have hfreshP := (vidsFreshB_eq_true_iff st).mp hfresh
  rw [List.filter_cons]
  have hdec : (decide (st.next_vid ≠ st.next_vid)) = false := by
    simp
  rw [hdec]
  simp only [Bool.false_eq_true, if_false]
  apply List.filter_eq_self.mpr
  intro v hv
  simpa using Nat.ne_of_lt (hfreshP v hv)

/-- Helper for C2: every `process_crawled_article` call preserves
cross-store consistency and vector-id freshness. -/
theorem cross_store_preserved (st : CoordState) (link_id : Nat)
    (art : ArticleData) (vOk mOk : Bool)
    (hcons : consistentB st = true) (hfresh : vidsFreshB st = true) :
    consistentB (process_crawled_article st link_id art vOk mOk).2 = true ∧
    vidsFreshB (process_crawled_article st link_id art vOk mOk).2 = true := by
  obtain ⟨hc1, hc2⟩ := (consistentB_eq_true_iff st).mp hcons
  have hfreshP := (vidsFreshB_eq_true_iff st).mp hfresh
  unfold process_crawled_article
  cases hl : lookupLink st link_id with
  | none => exact ⟨hcons, hfresh⟩
  | some s =>
    dsimp only
    by_cases hs : s = LinkStatus.CRAWLING
    · rw [if_pos hs]
      by_cases hdup : hasDuplicate st (content_hash_of art) art.domain = true
      · rw [if_pos hdup]
        rw [consistentB_set, vidsFreshB_set]
        exact ⟨hcons, hfresh⟩
      · rw [if_neg hdup]
        cases vOk with
        | false =>
          simp only [Bool.false_eq_true, if_false]
          rw [consistentB_set, vidsFreshB_set]
          exact ⟨hcons, hfresh⟩
        | true =>
          simp only [if_true]
          cases mOk with
          | true =>
            simp only [if_true]
            rw [consistentB_set, vidsFreshB_set]
            constructor
            · rw [consistentB_eq_true_iff]
              dsimp only
              constructor
              · intro a ha
                rcases List.mem_cons.mp ha with rfl | ha
                · exact List.mem_cons_self _ _
                · exact List.mem_cons_of_mem _ (hc1 a ha)
              · intro v hv
                rcases List.mem_cons.mp hv with rfl | hv
                · exact ⟨⟨link_id, st.next_vid, content_hash_of art, art.domain⟩,
                    List.mem_cons_self _ _, rfl⟩
                · rcases hc2 v hv with ⟨a, ha, haeq⟩
                  exact ⟨a, List.mem_cons_of_mem _ ha, haeq⟩
            · rw [vidsFreshB_eq_true_iff]
              dsimp only
              intro v hv
              rcases List.mem_cons.mp hv with rfl | hv
              · exact Nat.lt_succ_self _
              · exact Nat.lt_succ_of_lt (hfreshP v hv)
          | false =>
            simp only [Bool.false_eq_true, if_false]
            rw [consistentB_set, vidsFreshB_set]
            have hveq := filter_fresh_eq st hfresh
            unfold deleteVector
            constructor
            · rw [consistentB_eq_true_iff]
              dsimp only
              rw [hveq]
              exact ⟨hc1, hc2⟩
            · rw [vidsFreshB_eq_true_iff]
              dsimp only
              rw [hveq]
              intro v hv
              exact Nat.lt_succ_of_lt (hfreshP v hv)
    · rw [if_neg hs]
      exact ⟨hcons, hfresh⟩

/-- Evaluation of the compensation branch: link `CRAWLING`, no duplicate,
vector write succeeds, metadata write fails persistently. -/
theorem process_compensation_eval (st : CoordState) (link_id : Nat)
    (art : ArticleData)
    (h : lookupLink st link_id = some LinkStatus.CRAWLING)
    (hdup : hasDuplicate st (content_hash_of art) art.domain = false) :
    process_crawled_article st link_id art true false
      = (ProcResult.storageError,
          setLinkStatus
            (deleteVector
              { st with
                vectors := st.next_vid :: st.vectors,
                next_vid := st.next_vid + 1 }
              st.next_vid)
            link_id LinkStatus.FAILED) := by
  unfold process_crawled_article
  rw [h]
  dsimp only
  rw [if_pos rfl, hdup]
  simp only [Bool.false_eq_true, if_false, if_true]

/-- Claim C2: from any consistent state (with a well-formed vector-id
counter), every completed `process_crawled_article` call — success,
duplicate, invalid state, or compensated storage failure — leaves the two
stores consistent: every metadata row has its vector object and every vector
object has its metadata row, so never exactly one of the two records
persists. In particular, when the vector write succeeds and the metadata
write fails persistently, the call reports a storage error, the orphaned
vector object is deleted (both stores end exactly as they started) and the
link is marked `FAILED`. -/
theorem C2_cross_store_invariant (st : CoordState) (link_id : Nat)
    (art : ArticleData) (vOk mOk : Bool)
    (hcons : consistentB st = true) (hfresh : vidsFreshB st = true) :
    (consistentB (process_crawled_article st link_id art vOk mOk).2 = true ∧
      vidsFreshB (process_crawled_article st link_id art vOk mOk).2 = true) ∧
    (lookupLink st link_id = some LinkStatus.CRAWLING →
      hasDuplicate st (content_hash_of art) art.domain = false →
      (process_crawled_article st link_id art true false).1
          = ProcResult.storageError ∧
        (process_crawled_article st link_id art true false).2.vectors
          = st.vectors ∧
        (process_crawled_article st link_id art true false).2.articles
          = st.articles ∧
        lookupLink (process_crawled_article st link_id art true false).2 link_id
          = some LinkStatus.FAILED) := by
  refine ⟨cross_store_preserved st link_id art vOk mOk hcons hfresh, ?_⟩
  intro hl hdup
  rw [process_compensation_eval st link_id art hl hdup]
  refine ⟨rfl, filter_fresh_eq st hfresh, rfl, ?_⟩
  apply lookupLink_set_self
  show (lookupLink st link_id).isSome
  rw [hl]
  rfl

/-- Consistent starting state used by the C2 witness: one `CRAWLING` link,
empty stores. -/
def c2State : CoordState := ⟨[(1, LinkStatus.CRAWLING)], [], [], 0⟩

/-- Witness for C2: the compensation path (vector write succeeds, metadata
write fails persistently) keeps the stores consistent, deletes the orphan
and marks the link `FAILED`. -/
theorem C2_cross_store_invariant_witness :
    consistentB c2State = true ∧ vidsFreshB c2State = true ∧
    consistentB (process_crawled_article c2State 1
      ⟨"t", "c", "calcio"⟩ true false).2 = true ∧
    lookupLink (process_crawled_article c2State 1
      ⟨"t", "c", "calcio"⟩ true false).2 1 = some LinkStatus.FAILED :=
  ⟨by decide, by decide,
    (C2_cross_store_invariant c2State 1 ⟨"t", "c", "calcio"⟩ true false
      (by decide) (by decide)).1.1,
    ((C2_cross_store_invariant c2State 1 ⟨"t", "c", "calcio"⟩ true false
      (by decide) (by decide)).2 (by decide) (by decide)).2.2.2⟩

/-- Claim C5: two different links (different URLs) whose extraction produced
identical normalized text for the same domain yield exactly one
`ExtractedArticle`: the first `process_crawled_article` call succeeds, the
second detects the existing article row with the same content hash for the
domain, marks its link `CRAWLED`, and performs no vector-store or metadata
write. -/
theorem C5_content_dedup (st : CoordState) (l1 l2 : Nat)
    (a1 a2 : ArticleData) (hne : l1 ≠ l2)
    (h1 : lookupLink st l1 = some LinkStatus.CRAWLING)
    (h2 : lookupLink st l2 = some LinkStatus.CRAWLING)
    (hsame : content_hash_of a1 = content_hash_of a2)
    (hdom : a1.domain = a2.domain)
    (h0 : countArticles st (content_hash_of a1) a1.domain = 0) :
    ((process_crawled_article st l1 a1 true true).1 = ProcResult.success ∧
      (process_crawled_article
        (process_crawled_article st l1 a1 true true).2 l2 a2 true true).1
        = ProcResult.duplicate) ∧
    countArticles (process_crawled_article
        (process_crawled_article st l1 a1 true true).2 l2 a2 true true).2
      (content_hash_of a1) a1.domain = 1 ∧
    (process_crawled_article
        (process_crawled_article st l1 a1 true true).2 l2 a2 true true).2.articles
      = (process_crawled_article st l1 a1 true true).2.articles ∧
    (process_crawled_article
        (process_crawled_article st l1 a1 true true).2 l2 a2 true true).2.vectors
      = (process_crawled_article st l1 a1 true true).2.vectors ∧
    lookupLink (process_crawled_article
        (process_crawled_article st l1 a1 true true).2 l2 a2 true true).2 l2
      = some LinkStatus.CRAWLED := by
  have hdup1 : hasDuplicate st (content_hash_of a1) a1.domain = false :=
    hasDuplicate_eq_false_of_count_zero st _ _ h0
  -- Evaluate the first call.
  have hstep1 : process_crawled_article st l1 a1 true true
      = (ProcResult.success,
          setLinkStatus
            { st with
              vectors := st.next_vid :: st.vectors,
              next_vid := st.next_vid + 1,
              articles := ⟨l1, st.next_vid, content_hash_of a1, a1.domain⟩ ::
                st.articles }
            l1 LinkStatus.CRAWLED) := by
    unfold process_crawled_article
    rw [h1]
    dsimp only
    rw [if_pos rfl, hdup1]
    simp only [Bool.false_eq_true, if_false, if_true]
  set row : ArticleRow := ⟨l1, st.next_vid, content_hash_of a1, a1.domain⟩
    with hrow
  set S1 : CoordState :=
    setLinkStatus
      { st with
        vectors := st.next_vid :: st.vectors,
        next_vid := st.next_vid + 1,
        articles := row :: st.articles }
      l1 LinkStatus.CRAWLED
    with hS1
  have hS1links : lookupLink S1 l2 = some LinkStatus.CRAWLING := by
    rw [hS1]
    rw [lookupLink_set_ne _ _ _ _ hne]
    exact h2
  have hS1arts : S1.articles = row :: st.articles := rfl
  have hS1vecs : S1.vectors = st.next_vid :: st.vectors := rfl
  have hdup2 : hasDuplicate S1 (content_hash_of a2) a2.domain = true := by
    rw [hasDuplicate, List.any_eq_true]
    refine ⟨row, ?_, ?_⟩
    · rw [hS1arts]
      exact List.mem_cons_self _ _
    · rw [hrow]
      simp [← hsame, ← hdom]
  have hstep2 : process_crawled_article S1 l2 a2 true true
      = (ProcResult.duplicate, setLinkStatus S1 l2 LinkStatus.CRAWLED) := by
    unfold process_crawled_article
    rw [hS1links]
    dsimp only
    rw [if_pos rfl, hdup2]
    simp only [if_true]
  rw [hstep1]
  dsimp only
  rw [hstep2]
  dsimp only
  refine ⟨⟨rfl, rfl⟩, ?_, rfl, rfl, ?_⟩
  · show countArticles (setLinkStatus S1 l2 LinkStatus.CRAWLED)
      (content_hash_of a1) a1.domain = 1
    have hcount : countArticles (setLinkStatus S1 l2 LinkStatus.CRAWLED)
        (content_hash_of a1) a1.domain
        = countArticles S1 (content_hash_of a1) a1.domain := rfl
    rw [hcount]
    unfold countArticles
    rw [hS1arts, List.filter_cons]
    have hpr : (row.content_hash = content_hash_of a1 &&
        row.domain = a1.domain) = true := by
      rw [hrow]
      simp
    rw [hpr]
    simp only [if_true]
    unfold countArticles at h0
    rw [List.length_cons, h0]
  · show lookupLink (setLinkStatus S1 l2 LinkStatus.CRAWLED) l2
      = some LinkStatus.CRAWLED
    apply lookupLink_set_self
    rw [hS1links]
    rfl

/-- Starting state for the C5 witness: two `CRAWLING` links, empty stores. -/
def c5State : CoordState :=
  ⟨[(1, LinkStatus.CRAWLING), (2, LinkStatus.CRAWLING)], [], [], 0⟩

/-- First article of the C5 witness. -/
def c5A1 : ArticleData := ⟨"Titolo uno", "stesso contenuto", "calcio"⟩

/-- Second article of the C5 witness: a different URL and title, the same
normalized text and domain. -/
def c5A2 : ArticleData := ⟨"Titolo due", "stesso contenuto", "calcio"⟩

/-- Witness for C5 at a concrete pair of links with identical content. -/
theorem C5_content_dedup_witness :
    countArticles c5State (content_hash_of c5A1) c5A1.domain = 0 ∧
    countArticles (process_crawled_article
        (process_crawled_article c5State 1 c5A1 true true).2 2 c5A2 true true).2
      (content_hash_of c5A1) c5A1.domain = 1 :=
  ⟨by decide,
    (C5_content_dedup c5State 1 2 c5A1 c5A2 (by decide) (by decide) (by decide)
      (by decide) (by decide) (by decide)).2.1⟩

end Tanea
